import Mathlib

/-!
Shallow embedding of the WRSR-Workshop-IO Blender add-on (`src/__init__.py`)
and verification of the frozen claims about it.

The add-on is a thin supervisor around an external `steamcmd` process: it
starts the process on a background thread, streams its output into a bounded
status log, scrapes a 17-digit SteamID64 out of the output with a regular
expression, persists that identifier to a one-line text file, and polls for
completion from a UI timer callback.

Modelling conventions:
* Python strings are modelled as `List Char` (the ASCII fragment relevant to
  this add-on; Python's Unicode whitespace / `\w` classes are modelled by
  their ASCII fragments).
* The filesystem cell `steamid64.txt` is an `Option (List Char)`
  (`none` = file missing).  I/O is modelled as succeeding; in the source,
  write failures are printed and swallowed, never raised.
* The background thread's interleaving is sequentialised: a job is
  `setup ; worker-run ; poller-step-observing-a-dead-thread`, which is the
  order of effects of the source for a job that runs to completion.
-/

set_option maxRecDepth 8000

namespace WRSRWorkshop

/-- A Python text value (one output line, a log entry, a file's content). -/
abbrev Line := List Char

/-- Characters removed by Python `str.strip` / `str.rstrip` (ASCII whitespace). -/
def pyIsSpace (c : Char) : Bool :=
  c = ' ' || c = '\t' || c = '\n' || c = '\r' || c = '\x0b' || c = '\x0c'

/-- Python `str.lstrip()`. -/
def lstrip (l : List Char) : List Char := l.dropWhile pyIsSpace

/-- Python `str.rstrip()` (applied to every output line in `SteamCmdWorker.run`). -/
def rstrip (l : List Char) : List Char := (l.reverse.dropWhile pyIsSpace).reverse

/-- Python `str.strip()` (remove leading and trailing whitespace). -/
def strip (l : List Char) : List Char := lstrip (rstrip l)

/-- Word characters for the regex `\b` boundary (ASCII fragment of `\w`). -/
def isWordChar (c : Char) : Bool := c.isAlphanum || c = '_'

/-- The trailing `\b` test of `\b(76\d{15})\b`: end of string or a non-word
character follows the match. -/
def boundaryAfter : List Char → Bool
  | [] => true
  | c :: _ => !isWordChar c

/-- Try to match `\b(76\d{15})\b` at the head of `l`.  `prevNonWord` records
whether this position is the start of the string or is preceded by a non-word
character (the leading `\b`; the first pattern character `7` is a word
character, so the boundary holds exactly in those cases). -/
def matchIdAt (prevNonWord : Bool) (l : List Char) : Option (List Char) :=
  match l with
  | '7' :: '6' :: rest =>
    let ds := rest.take 15
    if prevNonWord && (ds.length == 15) && ds.all Char.isDigit
        && boundaryAfter (rest.drop 15)
    then some ('7' :: '6' :: ds)
    else none
  | _ => none

/-- Scan positions left to right for the leftmost match, as `re.search` does
(the pattern `76\d{15}` is rigid, so matching at a position is deterministic). -/
def searchIdFrom (prevNonWord : Bool) : List Char → Option (List Char)
  | [] => none
  | c :: rest =>
    match matchIdAt prevNonWord (c :: rest) with
    | some m => some m
    | none => searchIdFrom (!isWordChar c) rest

/-- `re.search(r"\b(76\d{15})\b", l)`, returning the matched group.  Also the
first element of `re.findall` for the same pattern (both are the leftmost
match). -/
def searchSteamId (l : List Char) : Option (List Char) := searchIdFrom true l

/-- The literal `"Logged in OK"` tested by `SteamCmdWorker.run`. -/
def loggedInOKMark : List Char := "Logged in OK".toList

/-- The literal `"Waiting for user info...OK"` tested by `SteamCmdWorker.run`. -/
def waitingOKMark : List Char := "Waiting for user info...OK".toList

/-- Python's `pat in line` substring test. -/
def containsMark (pat l : List Char) : Bool := decide (pat <:+: l)

/-- The login-success heuristic of `SteamCmdWorker.run`, applied to a raw
output line (the source tests the `rstrip`ped line). -/
def isSuccessLine (raw : Line) : Bool :=
  containsMark loggedInOKMark (rstrip raw) || containsMark waitingOKMark (rstrip raw)

/-- `tail_limit = 50` in both worker classes. -/
def tailLimit : Nat := 50

/-- `self.out_buffer.append(line)` followed by `del self.out_buffer[0]` when
`len(self.out_buffer) > tail_limit`. -/
def appendBounded (buf : List Line) (line : Line) : List Line :=
  let b := buf ++ [line]
  if b.length > tailLimit then b.drop 1 else b

/-- The local state of `SteamCmdWorker.run`'s read loop: the shared output
buffer, the `login_ok` flag and the `steamid_candidate` variable. -/
structure LoopState where
  buffer : List Line
  login_ok : Bool
  steamid_candidate : Option (List Char)
deriving DecidableEq

/-- One iteration of the `for line in proc.stdout` loop of
`SteamCmdWorker.run`: rstrip the line, append it to the rolling buffer,
test the success markers, and overwrite `steamid_candidate` on a regex hit. -/
def processLine (st : LoopState) (raw : Line) : LoopState :=
  let line := rstrip raw
  { buffer := appendBounded st.buffer line
    login_ok := st.login_ok || containsMark loggedInOKMark line
        || containsMark waitingOKMark line
    steamid_candidate :=
      match searchSteamId line with
      | some m => some m
      | none => st.steamid_candidate }

/-- The whole read loop over the process's output lines. -/
def runWorkerLoop (st : LoopState) (lines : List Line) : LoopState :=
  lines.foldl processLine st

/-- `write_steamid64_to_file`: the file ends up holding the stripped value
plus a newline. -/
def writeSteamid64File (x : List Char) : Option (List Char) :=
  some (strip x ++ ['\n'])

/-- `read_steamid64_from_file`: stripped content if the file exists, else
the empty string. -/
def readSteamid64 : Option (List Char) → List Char
  | some content => strip content
  | none => []

/-- The shared mutable state the operators, workers and pollers touch:
`prefs._status_lines`, the `{"ok", "running"}` dict, `prefs.steamid64`,
the `steamid64.txt` file and the generated `workshop.vdf` file. -/
structure St where
  status_lines : List Line
  ok : Bool
  running : Bool
  prefs_steamid64 : List Char
  fileContent : Option (List Char)
  vdfFile : Option String
deriving DecidableEq

/-- Environment of one worker run: whether `bundled_steamcmd_path()` exists,
whether `subprocess.Popen` succeeds, the process's output lines and its
exit code. -/
structure WEnv where
  scmdPath : String
  exeExists : Bool
  popenOk : Bool
  popenErr : String
  outputLines : List Line
  returncode : Int
deriving DecidableEq

/-- The log line `f"steamcmd not found: {scmd}"`. -/
def notFoundMsg (scmd : String) : Line :=
  ("steamcmd not found: " ++ scmd).toList

/-- The log line `f"Failed to start steamcmd: {e}"`. -/
def failedStartMsg (e : String) : Line :=
  ("Failed to start steamcmd: " ++ e).toList

/-- The log line appended by the login poller on failure. -/
def loginFailedMsg : Line := "Login did not complete successfully.".toList

/-- `SteamCmdWorker.run`.  Returns the updated shared state and whether the
external process was actually launched.  On a missing executable or a failed
`Popen`, a message is appended (without the tail bound) and `ok` is set to
`False`; otherwise the read loop runs, then
`ok = login_ok and (returncode == 0)`, and a scraped identifier, if any, is
persisted to the file and copied into `prefs.steamid64`. -/
def steamcmdWorkerRun (env : WEnv) (st : St) : St × Bool :=
  if !env.exeExists then
    ({ st with status_lines := st.status_lines ++ [notFoundMsg env.scmdPath],
               ok := false }, false)
  else if !env.popenOk then
    ({ st with status_lines := st.status_lines ++ [failedStartMsg env.popenErr],
               ok := false }, false)
  else
    let loop := runWorkerLoop ⟨st.status_lines, false, none⟩ env.outputLines
    let st1 := { st with status_lines := loop.buffer,
                         ok := loop.login_ok && (env.returncode == 0) }
    match loop.steamid_candidate with
    | some sid =>
      ({ st1 with fileContent := writeSteamid64File sid, prefs_steamid64 := sid },
        true)
    | none => (st1, true)

/-- Return value of a timer callback: `None` (stop) or `0.5` (poll again). -/
inductive TimerResult
  | stop
  | again
deriving DecidableEq

/-- The `_check_done` timer callback of `WRSR_OT_LoginSteamCmd.execute`,
parameterised by whether the worker thread is still alive at this poll. -/
def checkDone (workerAlive : Bool) (st : St) : St × TimerResult :=
  if st.running && !workerAlive then
    let st1 := { st with running := false }
    let st2 :=
      if st1.ok then
        if st1.prefs_steamid64 = [] then
          let existing := readSteamid64 st1.fileContent
          if existing ≠ [] then { st1 with prefs_steamid64 := existing } else st1
        else st1
      else { st1 with status_lines := st1.status_lines ++ [loginFailedMsg] }
    (st2, TimerResult.stop)
  else (st, TimerResult.again)

/-- The state resets performed by `WRSR_OT_LoginSteamCmd.execute` before the
worker thread is started: `prefs._status_lines.clear()` and
`prefs._worker_done = {"ok": False, "running": True}`. -/
def loginSetup (st : St) : St :=
  { st with status_lines := [], ok := false, running := true }

/-- Observable outcome of one whole login job. -/
structure JobOutcome where
  state : St
  threadStarted : Bool
  processLaunched : Bool
deriving DecidableEq

/-- One whole login job: the operator's resets, then the worker thread's run
(the source calls `worker.start()` unconditionally, so `threadStarted` is
always `true`; the missing-executable test happens inside the thread), then
the first poll of `_check_done` that observes the finished thread. -/
def loginJob (env : WEnv) (st : St) : JobOutcome :=
  let st1 := loginSetup st
  let r := steamcmdWorkerRun env st1
  let c := checkDone false r.1
  { state := c.1, threadStarted := true, processLaunched := r.2 }

/-- `self.report` severity levels used by the operators. -/
inductive ReportLevel
  | info
  | warning
deriving DecidableEq

/-- Blender operator results. -/
inductive OpResult
  | finished
  | cancelled
deriving DecidableEq

/-- Scan of one candidate `loginusers.vdf` file (`none` = missing or
unreadable, both skipped by the `try`/`exists()` guards):
`re.findall(r"\b(76\d{15})\b", txt)` and `m[0]`, i.e. the leftmost match. -/
def candidateMatch : Option (List Char) → Option (List Char)
  | none => none
  | some txt => searchSteamId txt

/-- The candidate loop of `WRSR_OT_DetectSteamID.execute`: first candidate
with any match wins; the loop `break`s there. -/
def detectFound : List (Option (List Char)) → Option (List Char)
  | [] => none
  | c :: rest =>
    match candidateMatch c with
    | some sid => some sid
    | none => detectFound rest

/-- `WRSR_OT_DetectSteamID.execute`: on a hit, set `prefs.steamid64`, persist
the value and report `INFO`/`FINISHED`; otherwise report `WARNING` and return
`CANCELLED`. -/
def detectExecute (st : St) (cands : List (Option (List Char))) :
    St × ReportLevel × OpResult :=
  match detectFound cands with
  | some found =>
    ({ st with prefs_steamid64 := found, fileContent := writeSteamid64File found },
      ReportLevel.info, OpResult.finished)
  | none => (st, ReportLevel.warning, OpResult.cancelled)

/-- The attribute names ever assigned on a `SteamCmdBuildWorker` object by the
add-on's code (`__init__` assigns these three; `run` assigns no attribute).
`threading.Thread.__init__` assigns only its own underscore-internal fields
and `daemon`, none of them named `new_item_id`. -/
def buildWorkerAssignedAttrs : List String :=
  ["cmd_args", "out_buffer", "done_flag"]

/-- The `workshop.vdf` text generated by `WRSR_OT_CreateNewItem.execute`. -/
def vdfText : String :=
  "\"workshopitem\"\n\x7b\n   \"appid\" \"784150\"\n   \"contentfolder\" \"\"\n   \"previewfile\" \"\"\n   \"visibility\" \"2\"\n   \"title\" \"New Workshop Item\"\n   \"description\" \"Created via Blender addon\"\n\x7d\n"

/-- The state resets performed by `WRSR_OT_CreateNewItem.execute` before its
worker thread is started (it additionally writes `workshop.vdf`). -/
def createItemSetup (st : St) : St :=
  { st with status_lines := [], ok := false, running := true,
            vdfFile := some vdfText }

/-- The `_check` timer callback of `WRSR_OT_CreateNewItem.execute`.  After
clearing `running` it evaluates `worker.new_item_id`; attribute lookup on the
worker object succeeds only for attributes the class ever assigns, so the
lookup is modelled by membership in `buildWorkerAssignedAttrs` and raises
`AttributeError` otherwise (the `ok` arm stands for the success/failure
reporting that would follow a successful lookup; it is unreachable for the
attribute list of the source class). -/
def buildCheck (workerAlive : Bool) (st : St) : Except String (St × TimerResult) :=
  if st.running && !workerAlive then
    let st1 := { st with running := false }
    if "new_item_id" ∈ buildWorkerAssignedAttrs then
      Except.ok (st1, TimerResult.stop)
    else
      Except.error "AttributeError: new_item_id"
  else Except.ok (st, TimerResult.again)

/-- `l.drop (l.length - n)`: the trailing window of at most `n` elements. -/
def lastN {α : Type _} (n : Nat) (l : List α) : List α :=
  l.drop (l.length - n)

/-- Fresh shared state (empty log, nothing running, no files). -/
def st0 : St :=
  { status_lines := [], ok := false, running := false,
    prefs_steamid64 := [], fileContent := none, vdfFile := none }

/-- Environment for a job whose executable is missing. -/
def envMissing : WEnv :=
  { scmdPath := "steamcmd/steamcmd.exe", exeExists := false, popenOk := true,
    popenErr := "", outputLines := [], returncode := 0 }

/-- Environment for the §8 scenario of claim C6. -/
def envC6 : WEnv :=
  { scmdPath := "steamcmd/steamcmd.exe", exeExists := true, popenOk := true,
    popenErr := "", outputLines := ["Accepted login for 76561198012345678".toList],
    returncode := 0 }

/-- Environment producing 50 output lines and a failed login. -/
def envC4 : WEnv :=
  { envC6 with outputLines := List.replicate 50 (['a' ]) }

/-- Environment with a successful login marker and exit code 0. -/
def envLoginOK : WEnv :=
  { envC6 with outputLines := ["Logged in OK".toList] }

/-- Environment with a successful login marker but exit code 1. -/
def envBadRC : WEnv :=
  { envC6 with outputLines := ["Logged in OK".toList], returncode := 1 }

/-- A line whose first (and only) identifier match is ...001. -/
def lineA : Line := "id 76561198000000001 x".toList

/-- A line whose first (and only) identifier match is ...002. -/
def lineB : Line := "id 76561198000000002 x".toList

/-- The loop state at the top of `SteamCmdWorker.run`'s read loop for a fresh
job (buffer cleared by the operator, flags reset). -/
def initLoop : LoopState :=
  { buffer := [], login_ok := false, steamid_candidate := none }

/-- A candidate configuration file with no identifier in it. -/
def candNoMatch : Option (List Char) := some ("nothing here".toList)

/-- A candidate configuration file containing one identifier. -/
def candWithId : Option (List Char) :=
  some ("\"SteamID\" \"76561198012345678\"".toList)

/-- A completed successful job whose preferences identifier is already set. -/
def stA : St :=
  { st0 with running := true, ok := true,
             prefs_steamid64 := "99999999999999999".toList,
             fileContent := some ("76561198012345678\n".toList) }

/-- A completed successful job whose preferences identifier is still empty. -/
def stB : St :=
  { st0 with running := true, ok := true, prefs_steamid64 := [],
             fileContent := some ("76561198012345678\n".toList) }

/-! Helper lemmas about Python-style whitespace stripping. -/

theorem dropWhile_idem (p : Char → Bool) (l : List Char) :
    (l.dropWhile p).dropWhile p = l.dropWhile p := by
  induction l with
  | nil => rfl
  | cons c t ih =>
    by_cases h : p c
    · simp [List.dropWhile_cons, h, ih]
    · simp [List.dropWhile_cons, h]

theorem lstrip_lstrip (l : List Char) : lstrip (lstrip l) = lstrip l := by
  simp [lstrip, dropWhile_idem]

theorem rstrip_rstrip (l : List Char) : rstrip (rstrip l) = rstrip l := by
  simp [rstrip, List.reverse_reverse, dropWhile_idem]

theorem rstrip_cons (c : Char) (t : List Char) :
    rstrip (c :: t)
      = if rstrip t = [] then (if pyIsSpace c then [] else [c])
        else c :: rstrip t := by
  show ((c :: t).reverse.dropWhile pyIsSpace).reverse = _
  rw [show (c :: t).reverse = t.reverse ++ [c] from by simp]
  rw [List.dropWhile_append]
  by_cases h : t.reverse.dropWhile pyIsSpace = []
  · rw [if_pos (by simp [h])]
    rw [if_pos (by simp [rstrip, h])]
    by_cases hc : pyIsSpace c <;> simp [List.dropWhile_cons, hc]
  · rw [if_neg (by simp [h])]
    rw [if_neg (by simp [rstrip, h])]
    simp [rstrip]

theorem rstrip_lstrip_comm (l : List Char) :
    rstrip (lstrip l) = lstrip (rstrip l) := by
  induction l with
  | nil => rfl
  | cons c t ih =>
    by_cases hc : pyIsSpace c
    · rw [show lstrip (c :: t) = lstrip t from by
        simp [lstrip, List.dropWhile_cons, hc]]
      rw [ih, rstrip_cons]
      by_cases h : rstrip t = []
      · simp [h, hc, lstrip]
      · simp [h, lstrip, List.dropWhile_cons, hc]
    · rw [show lstrip (c :: t) = c :: t from by
        simp [lstrip, List.dropWhile_cons, hc]]
      rw [rstrip_cons]
      by_cases h : rstrip t = []
      · simp [h, hc, lstrip, List.dropWhile_cons]
      · simp [h, lstrip, List.dropWhile_cons, hc]

theorem rstrip_append_space (c : Char) (hc : pyIsSpace c = true) (l : List Char) :
    rstrip (l ++ [c]) = rstrip l := by
  simp [rstrip, List.reverse_append, List.dropWhile_cons, hc]

theorem strip_idem (l : List Char) : strip (strip l) = strip l := by
  show lstrip (rstrip (lstrip (rstrip l))) = lstrip (rstrip l)
  rw [rstrip_lstrip_comm, rstrip_rstrip, lstrip_lstrip]

theorem strip_strip_append_nl (x : List Char) :
    strip (strip x ++ ['\n']) = strip x := by
  show lstrip (rstrip (strip x ++ ['\n'])) = strip x
  rw [rstrip_append_space '\n' rfl]
  exact strip_idem x

/-- A substring whose last character is not whitespace survives `rstrip`. -/
theorem infix_rstrip (m : List Char) (c : Char) (hc : pyIsSpace c = false)
    (l : List Char) (h : (m ++ [c]) <:+: l) : (m ++ [c]) <:+: rstrip l := by
  obtain ⟨s, t, rfl⟩ := h
  show (m ++ [c]) <:+: ((s ++ (m ++ [c]) ++ t).reverse.dropWhile pyIsSpace).reverse
  rw [show (s ++ (m ++ [c]) ++ t).reverse
      = t.reverse ++ (c :: (m.reverse ++ s.reverse)) from by simp]
  rw [List.dropWhile_append]
  by_cases he : t.reverse.dropWhile pyIsSpace = []
  · rw [if_pos (by simp [he])]
    rw [show (c :: (m.reverse ++ s.reverse)).dropWhile pyIsSpace
        = c :: (m.reverse ++ s.reverse) from by simp [List.dropWhile_cons, hc]]
    exact ⟨s, [], by simp⟩
  · rw [if_neg (by simp [he])]
    exact ⟨s, (t.reverse.dropWhile pyIsSpace).reverse, by simp⟩

/-! Helper lemmas about the worker's read loop. -/

theorem containsMark_iff (pat l : List Char) :
    containsMark pat l = true ↔ pat <:+: l := by
  simp [containsMark]

theorem runWorkerLoop_login_ok (lines : List Line) : ∀ st : LoopState,
    (runWorkerLoop st lines).login_ok
      = (st.login_ok || lines.any isSuccessLine) := by
  induction lines with
  | nil => intro st; simp [runWorkerLoop]
  | cons x xs ih =>
    intro st
    show (runWorkerLoop (processLine st x) xs).login_ok = _
    rw [ih]
    simp [processLine, isSuccessLine, Bool.or_assoc]

theorem runWorkerLoop_cand (lines : List Line) : ∀ st : LoopState,
    (runWorkerLoop st lines).steamid_candidate
      = lines.foldl (fun acc x =>
          match searchSteamId (rstrip x) with
          | some m => some m
          | none => acc) st.steamid_candidate := by
  induction lines with
  | nil => intro st; simp [runWorkerLoop]
  | cons x xs ih =>
    intro st
    show (runWorkerLoop (processLine st x) xs).steamid_candidate = _
    rw [ih]
    rfl

theorem runWorkerLoop_buffer (lines : List Line) : ∀ st : LoopState,
    (runWorkerLoop st lines).buffer
      = lines.foldl (fun b x => appendBounded b (rstrip x)) st.buffer := by
  induction lines with
  | nil => intro st; simp [runWorkerLoop]
  | cons x xs ih =>
    intro st
    show (runWorkerLoop (processLine st x) xs).buffer = _
    rw [ih]
    rfl

theorem foldl_overwrite_none (post : List Line) :
    ∀ acc : Option (List Char), (∀ x ∈ post, searchSteamId (rstrip x) = none) →
    post.foldl (fun acc x =>
        match searchSteamId (rstrip x) with
        | some m => some m
        | none => acc) acc = acc := by
  induction post with
  | nil => intro acc _; rfl
  | cons y ys ih =>
    intro acc hpost
    rw [List.foldl_cons]
    rw [show (match searchSteamId (rstrip y) with
        | some m => some m
        | none => acc) = acc from by rw [hpost y (by simp)]]
    exact ih acc (fun x hx => hpost x (by simp [hx]))

/-! Helper lemmas about the bounded log buffer. -/

theorem length_lastN {α : Type _} (n : Nat) (l : List α) :
    (lastN n l).length ≤ n := by
  simp [lastN]
  omega

theorem lastN_of_le {α : Type _} {n : Nat} {l : List α} (h : l.length ≤ n) :
    lastN n l = l := by
  simp [lastN, Nat.sub_eq_zero_of_le h]

theorem appendBounded_eq_lastN (buf : List Line) (y : Line)
    (h : buf.length ≤ 50) : appendBounded buf y = lastN 50 (buf ++ [y]) := by
  have hlen : (buf ++ [y]).length = buf.length + 1 := by simp
  show (if (buf ++ [y]).length > tailLimit then (buf ++ [y]).drop 1
      else buf ++ [y]) = _
  by_cases h2 : (buf ++ [y]).length > tailLimit
  · rw [if_pos h2, lastN]
    congr 1
    simp only [tailLimit] at h2
    omega
  · rw [if_neg h2]
    have hle : (buf ++ [y]).length ≤ 50 := by
      simp only [tailLimit] at h2
      omega
    exact (lastN_of_le hle).symm

theorem lastN_lastN_append {α : Type _} (n : Nat) (A R : List α) :
    lastN n (lastN n A ++ R) = lastN n (A ++ R) := by
  simp only [lastN, List.length_append, List.length_drop]
  rw [List.drop_append_eq_append_drop, List.drop_append_eq_append_drop,
    List.drop_drop]
  simp only [List.length_drop]
  congr 1
  · congr 1
    omega
  · congr 1
    omega

theorem foldl_appendBounded (lines : List Line) : ∀ buf : List Line,
    buf.length ≤ 50 →
    lines.foldl (fun b x => appendBounded b (rstrip x)) buf
      = lastN 50 (buf ++ lines.map rstrip) := by
  induction lines with
  | nil =>
    intro buf h
    rw [List.foldl_nil, List.map_nil, List.append_nil, lastN_of_le h]
  | cons x xs ih =>
    intro buf h
    rw [List.foldl_cons, List.map_cons]
    have hb : appendBounded buf (rstrip x) = lastN 50 (buf ++ [rstrip x]) :=
      appendBounded_eq_lastN buf (rstrip x) h
    have hlen : (appendBounded buf (rstrip x)).length ≤ 50 := by
      rw [hb]; exact length_lastN 50 _
    rw [ih _ hlen, hb, lastN_lastN_append]
    congr 1
    simp

/-- On the launched path, the recorded flag is exactly
`login_ok and (returncode == 0)`. -/
theorem steamcmdWorkerRun_ok (env : WEnv) (st : St) (hexe : env.exeExists = true)
    (hpo : env.popenOk = true) :
    (steamcmdWorkerRun env st).1.ok
      = (env.outputLines.any isSuccessLine && (env.returncode == 0)) := by
  cases hcand : (runWorkerLoop ⟨st.status_lines, false, none⟩
      env.outputLines).steamid_candidate with
  | none =>
    simp [steamcmdWorkerRun, hexe, hpo, hcand, runWorkerLoop_login_ok]
  | some sid =>
    simp [steamcmdWorkerRun, hexe, hpo, hcand, runWorkerLoop_login_ok]

/-- C1: for a login job whose process launches, the success flag recorded at
completion is true iff some output line contained a login success marker and
the exit code was 0; in particular output with a line containing
"Logged in OK" and exit code 0 gives true, and a nonzero exit code gives
false regardless of the printed content. -/
theorem claim_C1 (env : WEnv) (st : St) (hexe : env.exeExists = true)
    (hpo : env.popenOk = true) :
    ((steamcmdWorkerRun env st).1.ok
        = (env.outputLines.any isSuccessLine && (env.returncode == 0)))
    ∧ ((∃ l ∈ env.outputLines, loggedInOKMark <:+: l) → env.returncode = 0 →
        (steamcmdWorkerRun env st).1.ok = true)
    ∧ (env.returncode ≠ 0 → (steamcmdWorkerRun env st).1.ok = false) := by
  have hok := steamcmdWorkerRun_ok env st hexe hpo
  refine ⟨hok, ?_, ?_⟩
  · rintro ⟨l, hl, hinf⟩ hrc
    rw [hok]
    have hdecomp : loggedInOKMark = "Logged in O".toList ++ ['K' ] := by decide
    have h2 : loggedInOKMark <:+: rstrip l := by
      rw [hdecomp] at hinf ⊢
      exact infix_rstrip _ 'K' (by decide) l hinf
    have hmark : isSuccessLine l = true := by
      simp [isSuccessLine, containsMark, decide_eq_true h2]
    have hany : env.outputLines.any isSuccessLine = true :=
      List.any_eq_true.mpr ⟨l, hl, hmark⟩
    rw [hany, hrc]
    simp
  · intro hrc
    rw [hok]
    have hbeq : (env.returncode == 0) = false := by
      simpa using hrc
    simp [hbeq]

/-- Witness for C1: a job printing "Logged in OK" with exit code 0 records
`ok = true`; the same output with exit code 1 records `ok = false`. -/
theorem claim_C1_witness :
    (steamcmdWorkerRun envLoginOK (loginSetup st0)).1.ok = true
    ∧ (steamcmdWorkerRun envBadRC (loginSetup st0)).1.ok = false := by
  constructor
  · exact (claim_C1 envLoginOK (loginSetup st0) rfl rfl).2.1
      ⟨"Logged in OK".toList, by decide, by decide⟩ rfl
  · exact (claim_C1 envBadRC (loginSetup st0) rfl rfl).2.2 (by decide)

/-- C5: writing any non-empty text to the Identifier Store and reading it
back returns the text stripped of surrounding whitespace. -/
theorem claim_C5 (x : List Char) (_hx : x ≠ []) :
    readSteamid64 (writeSteamid64File x) = strip x := by
  show strip (strip x ++ ['\n']) = strip x
  exact strip_strip_append_nl x

/-- Witness for C5 at a concrete padded identifier. -/
theorem claim_C5_witness :
    readSteamid64 (writeSteamid64File ("  76561198012345678 ".toList))
      = "76561198012345678".toList := by
  rw [claim_C5 ("  76561198012345678 ".toList) (by decide)]
  decide

/-- C6: for the output line "Accepted login for 76561198012345678" with exit
code 0, the identifier file ends up containing 76561198012345678. -/
theorem claim_C6 :
    (loginJob envC6 st0).state.fileContent = some ("76561198012345678\n".toList)
    ∧ readSteamid64 (loginJob envC6 st0).state.fileContent
        = "76561198012345678".toList := by
  exact ⟨by decide, by decide⟩

/-- C2 counterexample: with a missing executable the login operator still
starts its background worker thread — `worker.start()` is called
unconditionally, the existence check runs inside the thread — so the claim's
"without starting a background thread" is false at this input. -/
theorem claim_C2_cex : (loginJob envMissing st0).threadStarted = true := rfl

/-- C2 (amended): if the executable path does not exist, the job appends a
failure message to the log and sets ok=false without launching the external
process, and the poller transitions running from true to false; the
background thread itself, however, is started unconditionally and only then
performs the check and exits. -/
theorem claim_C2_amended (env : WEnv) (st : St) (h : env.exeExists = false) :
    (loginJob env st).state.ok = false
    ∧ (loginJob env st).state.running = false
    ∧ (loginJob env st).state.status_lines
        = [notFoundMsg env.scmdPath, loginFailedMsg]
    ∧ (loginJob env st).processLaunched = false
    ∧ (loginJob env st).threadStarted = true := by
  simp [loginJob, loginSetup, steamcmdWorkerRun, checkDone, h]

/-- Witness for C2 (amended) at the concrete missing-executable environment. -/
theorem claim_C2_witness :
    (loginJob envMissing st0).state.ok = false
    ∧ (loginJob envMissing st0).state.running = false
    ∧ (loginJob envMissing st0).state.status_lines
        = [notFoundMsg "steamcmd/steamcmd.exe", loginFailedMsg]
    ∧ (loginJob envMissing st0).processLaunched = false
    ∧ (loginJob envMissing st0).threadStarted = true :=
  claim_C2_amended envMissing st0 rfl

/-- The candidate scan keeps the last match: matches on later lines
overwrite, and lines without a match leave the accumulator unchanged. -/
theorem foldl_last_match (pre post : List Line) (l : Line) (sid : List Char)
    (hl : searchSteamId (rstrip l) = some sid)
    (hpost : ∀ x ∈ post, searchSteamId (rstrip x) = none)
    (acc : Option (List Char)) :
    (pre ++ l :: post).foldl (fun acc x =>
        match searchSteamId (rstrip x) with
        | some m => some m
        | none => acc) acc = some sid := by
  rw [List.foldl_append, List.foldl_cons, hl]
  exact foldl_overwrite_none post (some sid) hpost

/-- C3 counterexample: with two lines each containing a (different)
identifier match, the extracted identifier is the second line's match, not
the first line's, so "later matching lines do not overwrite" is false. -/
theorem claim_C3_cex :
    searchSteamId (rstrip lineA) = some ("76561198000000001".toList)
    ∧ (runWorkerLoop initLoop [lineA, lineB]).steamid_candidate
        = some ("76561198000000002".toList)
    ∧ "76561198000000001".toList ≠ "76561198000000002".toList := by
  exact ⟨by decide, by decide, by decide⟩

/-- C3 (amended): within a single login job's output scan the LAST line with
an identifier match determines the extracted identifier — each later match
overwrites the candidate — while within one line the leftmost match is
taken. -/
theorem claim_C3_amended (st : LoopState) (pre post : List Line) (l : Line)
    (sid : List Char) (hl : searchSteamId (rstrip l) = some sid)
    (hpost : ∀ x ∈ post, searchSteamId (rstrip x) = none) :
    (runWorkerLoop st (pre ++ l :: post)).steamid_candidate = some sid := by
  rw [runWorkerLoop_cand]
  exact foldl_last_match pre post l sid hl hpost st.steamid_candidate

/-- Witness for C3 (amended): the last matching line wins even when an
earlier line also matched and a later line does not match. -/
theorem claim_C3_witness :
    (runWorkerLoop initLoop ([lineB] ++ lineA :: ["no id here".toList])).steamid_candidate
      = some ("76561198000000001".toList) :=
  claim_C3_amended initLoop [lineB] ["no id here".toList] lineA
    ("76561198000000001".toList) (by decide) (by decide)

/-- C4 counterexample: a completed failed login job with 50 output lines
retains 51 log entries — the poller appends its failure message without the
tail bound — so "never exceeds the fixed capacity of 50 entries" is false. -/
theorem claim_C4_cex :
    50 < (loginJob envC4 st0).state.status_lines.length := by decide

/-- One poller step extends the log by at most one entry. -/
theorem checkDone_status_le (st : St) :
    (checkDone false st).1.status_lines.length ≤ st.status_lines.length + 1 := by
  by_cases hrun : st.running
  · by_cases hok : st.ok
    · by_cases hp : st.prefs_steamid64 = []
      · by_cases hf : readSteamid64 st.fileContent ≠ []
        <;> simp [checkDone, hrun, hok, hp, hf]
      · simp [checkDone, hrun, hok, hp]
    · simp [checkDone, hrun, hok]
  · simp [checkDone, hrun]

/-- Starting from a cleared log, the worker leaves at most 50 log entries. -/
theorem steamcmdWorkerRun_status_le (env : WEnv) (st : St)
    (h : st.status_lines = []) :
    (steamcmdWorkerRun env st).1.status_lines.length ≤ 50 := by
  by_cases hexe : env.exeExists
  · by_cases hpo : env.popenOk
    · have hbuf : (runWorkerLoop ⟨st.status_lines, false, none⟩
          env.outputLines).buffer.length ≤ 50 := by
        rw [runWorkerLoop_buffer,
          foldl_appendBounded env.outputLines st.status_lines (by simp [h])]
        exact length_lastN 50 _
      cases hcand : (runWorkerLoop ⟨st.status_lines, false, none⟩
          env.outputLines).steamid_candidate with
      | none => simpa [steamcmdWorkerRun, hexe, hpo, hcand] using hbuf
      | some sid => simpa [steamcmdWorkerRun, hexe, hpo, hcand] using hbuf
    · simp [steamcmdWorkerRun, hexe, hpo, h]
  · simp [steamcmdWorkerRun, hexe, h]

/-- After a whole login job, the log holds at most 51 entries: at most 50
from the worker's bounded loop plus at most one poller failure message. -/
theorem loginJob_log_length_le (env : WEnv) (st : St) :
    (loginJob env st).state.status_lines.length ≤ 51 := by
  have h1 : (steamcmdWorkerRun env (loginSetup st)).1.status_lines.length ≤ 50 :=
    steamcmdWorkerRun_status_le env (loginSetup st) rfl
  have h2 := checkDone_status_le (steamcmdWorkerRun env (loginSetup st)).1
  show (checkDone false (steamcmdWorkerRun env (loginSetup st)).1).1.status_lines.length ≤ 51
  omega

/-- C4 (amended): during the worker's read loop the retained log is exactly
the trailing window of the (up to) 50 most recent rstripped lines in arrival
order and never exceeds 50 entries; over a whole job the poller may append
one more failure message without the bound check, so the completed job's log
is bounded by 51, not 50. -/
theorem claim_C4_amended (lines : List Line) :
    ((runWorkerLoop initLoop lines).buffer = lastN 50 (lines.map rstrip)
      ∧ (runWorkerLoop initLoop lines).buffer.length ≤ 50)
    ∧ (∀ (env : WEnv) (st : St),
        (loginJob env st).state.status_lines.length ≤ 51) := by
  have h : (runWorkerLoop initLoop lines).buffer
      = lastN 50 (initLoop.buffer ++ lines.map rstrip) := by
    rw [runWorkerLoop_buffer]
    exact foldl_appendBounded lines initLoop.buffer (by decide)
  refine ⟨⟨?_, ?_⟩, fun env st => loginJob_log_length_le env st⟩
  · simpa [initLoop] using h
  · rw [h]
    exact length_lastN 50 _

/-- The candidate loop returns the first candidate's match when all earlier
candidates have none. -/
theorem detectFound_of_first (pre : List (Option (List Char))) :
    ∀ (c : Option (List Char)) (post : List (Option (List Char)))
      (sid : List Char), (∀ x ∈ pre, candidateMatch x = none) →
    candidateMatch c = some sid → detectFound (pre ++ c :: post) = some sid := by
  induction pre with
  | nil =>
    intro c post sid _ hc
    show (match candidateMatch c with
      | some s => some s
      | none => detectFound post) = some sid
    rw [hc]
  | cons y ys ih =>
    intro c post sid hpre hc
    show (match candidateMatch y with
      | some s => some s
      | none => detectFound (ys ++ c :: post)) = some sid
    rw [hpre y (by simp)]
    exact ih c post sid (fun x hx => hpre x (by simp [hx])) hc

/-- The candidate loop returns nothing when no candidate has a match. -/
theorem detectFound_none (cands : List (Option (List Char))) :
    (∀ x ∈ cands, candidateMatch x = none) → detectFound cands = none := by
  induction cands with
  | nil => intro _; rfl
  | cons y ys ih =>
    intro h
    show (match candidateMatch y with
      | some s => some s
      | none => detectFound ys) = none
    rw [h y (by simp)]
    exact ih (fun x hx => h x (by simp [hx]))

/-- C7: identifier detection scans the candidate paths in order and stops at
the first candidate whose text has a 17-digit match, taking that file's
first match, setting the preferences field, persisting the value and
finishing; if no candidate yields a match it reports a warning and returns a
cancelled result, leaving the state unchanged. -/
theorem claim_C7 :
    (∀ (st : St) (pre post : List (Option (List Char)))
        (c : Option (List Char)) (sid : List Char),
      (∀ x ∈ pre, candidateMatch x = none) → candidateMatch c = some sid →
      detectExecute st (pre ++ c :: post)
        = ({ st with prefs_steamid64 := sid,
                     fileContent := writeSteamid64File sid },
           ReportLevel.info, OpResult.finished))
    ∧ (∀ (st : St) (cands : List (Option (List Char))),
      (∀ x ∈ cands, candidateMatch x = none) →
      detectExecute st cands = (st, ReportLevel.warning, OpResult.cancelled)) := by
  constructor
  · intro st pre post c sid hpre hc
    unfold detectExecute
    rw [detectFound_of_first pre c post sid hpre hc]
  · intro st cands h
    unfold detectExecute
    rw [detectFound_none cands h]

/-- Witness for C7: a missing file and a matchless file are skipped, the
third candidate's identifier wins and the fourth is never consulted; and a
list with no matching candidate is cancelled with a warning. -/
theorem claim_C7_witness :
    detectExecute st0 ([none, candNoMatch] ++ candWithId :: [candNoMatch])
      = ({ st0 with prefs_steamid64 := "76561198012345678".toList,
                    fileContent := writeSteamid64File ("76561198012345678".toList) },
         ReportLevel.info, OpResult.finished)
    ∧ detectExecute st0 [none, candNoMatch]
      = (st0, ReportLevel.warning, OpResult.cancelled) := by
  constructor
  · exact claim_C7.1 st0 [none, candNoMatch] [candNoMatch] candWithId
      ("76561198012345678".toList) (by decide) (by decide)
  · exact claim_C7.2 st0 [none, candNoMatch] (by decide)

/-- C8: the build worker class never assigns a `new_item_id` attribute, so
the build poller's post-completion branch always raises `AttributeError` at
`worker.new_item_id` and neither its success nor its failure reporting can
complete. -/
theorem claim_C8 :
    ("new_item_id" ∉ buildWorkerAssignedAttrs)
    ∧ (∀ st : St, st.running = true →
        buildCheck false st = Except.error "AttributeError: new_item_id") := by
  refine ⟨by decide, ?_⟩
  intro st h
  simp [buildCheck, h, buildWorkerAssignedAttrs]

/-- Witness for C8 at a concrete running job state. -/
theorem claim_C8_witness :
    buildCheck false { st0 with running := true }
      = Except.error "AttributeError: new_item_id" :=
  claim_C8.2 { st0 with running := true } rfl

/-- C9: starting either job (login or build) first clears the status log and
resets the shared flags to ok=false, running=true — leaving the rest of the
state untouched — and only then is the worker run on that reset state. -/
theorem claim_C9 (st : St) :
    ((loginSetup st).status_lines = [] ∧ (loginSetup st).ok = false
      ∧ (loginSetup st).running = true
      ∧ (loginSetup st).prefs_steamid64 = st.prefs_steamid64
      ∧ (loginSetup st).fileContent = st.fileContent)
    ∧ ((createItemSetup st).status_lines = [] ∧ (createItemSetup st).ok = false
      ∧ (createItemSetup st).running = true
      ∧ (createItemSetup st).prefs_steamid64 = st.prefs_steamid64
      ∧ (createItemSetup st).fileContent = st.fileContent)
    ∧ (∀ env : WEnv, loginJob env st
        = { state := (checkDone false (steamcmdWorkerRun env (loginSetup st)).1).1,
            threadStarted := true,
            processLaunched := (steamcmdWorkerRun env (loginSetup st)).2 }) :=
  ⟨⟨rfl, rfl, rfl, rfl, rfl⟩, ⟨rfl, rfl, rfl, rfl, rfl⟩, fun _ => rfl⟩

/-- C10: when the login poller handles a finished job, it copies the
persisted file value into the preferences identifier field only if that
field is empty; a non-empty field is left unchanged. -/
theorem claim_C10 (st : St) (hrun : st.running = true) :
    (st.prefs_steamid64 ≠ [] →
      (checkDone false st).1.prefs_steamid64 = st.prefs_steamid64)
    ∧ (st.ok = true → st.prefs_steamid64 = [] →
        readSteamid64 st.fileContent ≠ [] →
        (checkDone false st).1.prefs_steamid64 = readSteamid64 st.fileContent) := by
  constructor
  · intro hne
    by_cases hok : st.ok <;> simp [checkDone, hrun, hne, hok]
  · intro hok hemp hne
    simp [checkDone, hrun, hok, hemp, hne]

/-- Witness for C10: a non-empty preferences field survives completion
unchanged, and an empty one receives the persisted file value. -/
theorem claim_C10_witness :
    (checkDone false stA).1.prefs_steamid64 = "99999999999999999".toList
    ∧ (checkDone false stB).1.prefs_steamid64 = "76561198012345678".toList := by
  constructor
  · exact ((claim_C10 stA rfl).1 (by decide)).trans (by decide)
  · exact ((claim_C10 stB rfl).2 rfl rfl (by decide)).trans (by decide)

end WRSRWorkshop
